import Mathlib

/-!
Verification of the RelStorage TPC `Restore` state, the PostgreSQL
`_StoredFunction` value object, and the blob lifecycle manager, as a
shallow embedding of the Python sources.
-/

namespace RelStorage

/-! ## `_StoredFunction` (adapters/postgresql/schema.py) -/

/-- Embeds `_StoredFunction`: name, signature, checksum, create.
`signature`, `checksum` and `create` may be `None` in the source, hence
`Option`. -/
structure StoredFunction where
  name : String
  signature : Option String
  checksum : Option String
  create : Option String
deriving DecidableEq

/-- The result of a Python `__eq__` call: a boolean, or `NotImplemented`
when the other operand is of a foreign type. -/
inductive PyEqResult where
  | bool (value : Bool)
  | notImplemented
deriving DecidableEq

/-- A Python value as seen by `_StoredFunction.__eq__`: either another
`_StoredFunction`, or a value of any other type (represented by a tag). -/
inductive PyValue where
  | storedFunction (f : StoredFunction)
  | otherValue (tag : Nat)
deriving DecidableEq

/-- Embeds `_StoredFunction.__eq__`: `NotImplemented` unless the other
operand is a `_StoredFunction`, else compares `name` and `checksum` only. -/
def StoredFunction.eq (a : StoredFunction) (other : PyValue) : PyEqResult :=
  match other with
  | .storedFunction g => .bool (a.name == g.name && a.checksum == g.checksum)
  | .otherValue _ => .notImplemented

/-! ## The `Restore` begin state (storage/tpc/restore.py) -/

/-- Embeds `Restore._COPY_ATTRS` exactly as written in the source,
including the misspelled entry `deletObject`. -/
def COPY_ATTRS : List String :=
  ["store",
   "checkCurrentSerialInTransaction",
   "deletObject",
   "undo",
   "tpc_vote",
   "tpc_abort",
   "no_longer_stale"]

/-- Embeds the attribute-copying loop of `Restore.__init__`: for each name
in `_COPY_ATTRS`, `getattr` on the begin state (an `AttributeError`,
i.e. `none`, is skipped) followed by `setattr` on the `Restore` object.
Methods are identified by opaque `Nat` tags. -/
def copyAttrs (beginAttrs : String → Option Nat) : List (String × Nat) :=
  COPY_ATTRS.foldl
    (fun acc name =>
      match beginAttrs name with
      | some m => acc ++ [(name, m)]
      | none => acc)
    []

/-- Attribute lookup on the constructed `Restore` object for the copied
methods. -/
def restoreAttr (copied : List (String × Nat)) (name : String) : Option Nat :=
  (copied.find? (fun e => e.1 == name)).map (fun e => e.2)

/-- A begin state offering the usual `IStorage` methods, in particular the
correctly spelled `deleteObject`. -/
def beginAttrsFull : String → Option Nat := fun name =>
  if name = "store" then some 1
  else if name = "checkCurrentSerialInTransaction" then some 2
  else if name = "deleteObject" then some 3
  else if name = "undo" then some 4
  else if name = "tpc_abort" then some 5
  else none

/-- Errors raised by the restore path. `storageTransactionError` embeds
`ZODB.POSException.StorageTransactionError` (the transaction-mismatch
error). -/
inductive StorageErr where
  | storageTransactionError
deriving DecidableEq

/-- One observable side effect of the restore path, in order of
occurrence. -/
inductive Ev where
  | rowRecorded (oid tid : Nat) (data : Option String)
  | batcherFlushed
  | blobRestored (oid tid : Nat) (blobfilename : String)
deriving DecidableEq

/-- The mutable state reached through a `Restore` object: the wrapped begin
state's bound transaction and `max_stored_oid`, the rows queued in the
`Restore` state's batcher, and the trace of effects performed so far. -/
structure RestoreState where
  boundTxn : Nat
  max_stored_oid : Nat
  pending : List (Nat × Nat × Option String)
  events : List Ev
deriving DecidableEq

/-- Embeds `Restore.restore(oid, this_tid, data, prev_txn, transaction)`:
raises `StorageTransactionError` when `transaction` is not the wrapped
state's bound transaction (an error result leaves the state untouched);
otherwise updates `max_stored_oid` and hands the row to
`adapter.mover.restore(cursor, batcher, oid_int, tid_int, data)`, which
queues it in the batcher. `prev_txn` is ignored by the source. OIDs and
TIDs are the 8-byte big-endian integers after `bytes8_to_int64`. -/
def Restore.restore (s : RestoreState) (oid tid : Nat) (data : Option String)
    (_prevTxn : Option Nat) (txn : Nat) : Except StorageErr RestoreState :=
  if txn ≠ s.boundTxn then
    .error .storageTransactionError
  else
    .ok { s with
          max_stored_oid := max s.max_stored_oid oid,
          pending := s.pending ++ [(oid, tid, data)],
          events := s.events ++ [.rowRecorded oid tid data] }

/-- Embeds `batcher.flush()`: the queued rows are sent in one round trip. -/
def batcherFlush (s : RestoreState) : RestoreState :=
  { s with pending := [], events := s.events ++ [.batcherFlushed] }

/-- Embeds `Restore.restoreBlob(oid, serial, data, blobfilename, prev_txn,
txn)`: first `self.restore(...)`, then `self.batcher.flush()`, then
`blobhelper.restoreBlob(cursor, oid, serial, blobfilename)`. -/
def Restore.restoreBlob (s : RestoreState) (oid serial : Nat)
    (data : Option String) (blobfilename : String) (prevTxn : Option Nat)
    (txn : Nat) : Except StorageErr RestoreState :=
  match Restore.restore s oid serial data prevTxn txn with
  | .error e => .error e
  | .ok s1 =>
      let s2 := batcherFlush s1
      .ok { s2 with events := s2.events ++ [.blobRestored oid serial blobfilename] }

/-- A sequence of `restore` calls within one transaction, one per oid, as
used by `copyTransactionsFrom`. -/
def runRestores (s : RestoreState) (oids : List Nat) (tid : Nat) (txn : Nat) :
    Except StorageErr RestoreState :=
  match oids with
  | [] => .ok s
  | o :: rest =>
      match Restore.restore s o tid none none txn with
      | .error e => .error e
      | .ok s1 => runRestores s1 rest tid txn

/-! ## `Restore.__init__` and the vote factory (storage/tpc/restore.py) -/

/-- The commit lock returned by
`DatabaseLockedForTid.lock_database_for_given_tid`. -/
structure LockToken where
  tid : Nat
  packed : Bool
deriving DecidableEq

/-- One step of `Restore.__init__`, in order of occurrence. -/
inductive InitEv where
  | lockRequested (tid : Nat) (packed : Bool)
  | storeConnectionDropped
  | batcherCreated
  | attrCopied (name : String)
  | voteFactoryInstalled
deriving DecidableEq

/-- One effect performed by a vote state's `_flush_temps_to_db`:
the original temp-table flushing (opaque tags), or a flush of the
`Restore` state's batcher. -/
inductive FlushEv where
  | tempFlush (tag : Nat)
  | batcherFlush
deriving DecidableEq

/-- The fields of a vote state that `Restore.__init__` touches:
`committing_tid_lock` and the sequence of effects its
`_flush_temps_to_db` performs when run. -/
structure VoteState where
  committing_tid_lock : Option LockToken
  flushSeq : List FlushEv

/-- Embeds the `tpc_vote_factory` closure installed by `Restore.__init__`:
it calls the original factory, sets `committing_tid_lock` to the acquired
lock, and wraps `_flush_temps_to_db` so the original flush runs first and
the batcher flush runs after it. -/
def wrapVoteFactory (lock : LockToken) (origFactory : Nat → VoteState) :
    Nat → VoteState :=
  fun st =>
    let voteState := origFactory st
    { voteState with
      committing_tid_lock := some lock,
      flushSeq := voteState.flushSeq ++ [.batcherFlush] }

/-- The begin state handed to `Restore.__init__`: its bound transaction,
its running `max_stored_oid`, and its attribute table. -/
structure BeginState where
  transaction : Nat
  max_stored_oid : Nat
  attrs : String → Option Nat

/-- The fully constructed `Restore` object. -/
structure RestoreObj where
  copied : List (String × Nat)
  lock : LockToken
  state : RestoreState
  factory : Nat → VoteState

/-- Embeds `Restore.__init__(begin_state, committing_tid, status)`. The
outcome of `DatabaseLockedForTid.lock_database_for_given_tid` (a
collaborator outside this module) is a parameter: a token on success, an
exception value on failure. On failure the store connection is dropped and
the same exception propagates; on success the batcher is created, the
`_COPY_ATTRS` methods are copied, and the wrapped vote factory is
installed, in that order. The returned trace lists the steps performed. -/
def restoreInit (committing_tid : Nat) (status : String)
    (lockAttempt : Except Nat LockToken) (b : BeginState)
    (origFactory : Nat → VoteState) :
    Except (Nat × List InitEv) (RestoreObj × List InitEv) :=
  let packed := status == "p"
  let ev0 : List InitEv := [.lockRequested committing_tid packed]
  match lockAttempt with
  | .error e => .error (e, ev0 ++ [.storeConnectionDropped])
  | .ok lock =>
      let copied := copyAttrs b.attrs
      let events := ev0 ++ [.batcherCreated]
        ++ copied.map (fun p => InitEv.attrCopied p.1)
        ++ [.voteFactoryInstalled]
      .ok ({ copied := copied,
             lock := lock,
             state := { boundTxn := b.transaction,
                        max_stored_oid := b.max_stored_oid,
                        pending := [],
                        events := [] },
             factory := wrapVoteFactory lock origFactory },
           events)

/-! ## Blob lifecycle manager (`relstorage.blobhelper`)

The module `relstorage/blobhelper.py` itself is not part of this source
tree; only its test suite (`tests/test_blobhelper.py`) is. The definitions
below are therefore modelled from the spec, checked against that test
suite. -/

/-- A filesystem path as the blob helper uses them: a caller-supplied
source file, a transaction-scoped staging file (fresh per store, keyed by
oid and a sequence number), or the deterministic committed cache location
for an (oid, tid) pair (`fshelper.getBlobFilename`). -/
inductive BlobPath where
  | user (n : Nat)
  | staged (oid seq : Nat)
  | cached (oid tid : Nat)
deriving DecidableEq

/-- A local filesystem: an association of paths to file contents. -/
abbrev BlobFS := List (BlobPath × String)

/-- Read a file, `none` when absent. -/
def fsRead : BlobFS → BlobPath → Option String
  | [], _ => none
  | e :: rest, p => if e.1 = p then some e.2 else fsRead rest p

/-- Remove a file (a no-op when absent). -/
def fsRemove : BlobFS → BlobPath → BlobFS
  | [], _ => []
  | e :: rest, p => if e.1 = p then fsRemove rest p else e :: fsRemove rest p

/-- Write a file, replacing any previous content. -/
def fsWrite (fs : BlobFS) (p : BlobPath) (c : String) : BlobFS :=
  (p, c) :: fsRemove fs p

/-- Existence check (`os.path.exists`). -/
def fsExists (fs : BlobFS) (p : BlobPath) : Bool :=
  (fsRead fs p).isSome

/-- Blob helper errors. `objectNotFound` embeds `POSKeyError`. -/
inductive BlobErr where
  | objectNotFound
deriving DecidableEq

/-- The mode fixed at construction: shared blob dir, or unshared
(private, per-process) cache. -/
inductive BlobMode where
  | shared
  | unshared
deriving DecidableEq

/-- Modelled from the spec: the Mover's `download_blob` behaviour for one
(oid, tid) — `some c` streams the backend content `c` into the target,
`none` means no blob exists for this revision and the filesystem is left
untouched (missing source: `relstorage/blobhelper.py` and the adapter
mover; this matches `DummyMover.download_blob` in the test suite). -/
def applyDownload (dl : Option String) (fs : BlobFS) (target : BlobPath) :
    BlobFS :=
  match dl with
  | some c => fsWrite fs target c
  | none => fs

/-- Modelled from the spec: `BlobHelper.loadBlob(cursor, oid, tid)`
(missing source: `relstorage/blobhelper.py`). Shared mode is a pure
existence check on the deterministic cache path, failing with
`ObjectNotFound` when absent and never consulting the backend. Unshared
mode triggers an internal download first when the cache path is absent and
fails with `ObjectNotFound` only if the file is still absent afterward. -/
def loadBlob (mode : BlobMode) (dl : Option String) (fs : BlobFS)
    (oid tid : Nat) : Except BlobErr (BlobFS × BlobPath) :=
  let fn := BlobPath.cached oid tid
  match mode with
  | .shared =>
      if fsExists fs fn then .ok (fs, fn) else .error .objectNotFound
  | .unshared =>
      if fsExists fs fn then .ok (fs, fn)
      else
        let fs1 := applyDownload dl fs fn
        if fsExists fs1 fn then .ok (fs1, fn) else .error .objectNotFound

/-- Modelled from the spec: `BlobHelper.openCommittedBlobFile` (missing
source: `relstorage/blobhelper.py`). Resolution goes through
`loadBlob`-equivalent logic; `vanish1` (resp. `vanish2`) says whether
another process removes the resolved file between the first (resp. second)
resolution and the open. A failed open retries resolution exactly once;
after the second attempt a still-missing file is `ObjectNotFound`. Returns
the number of resolution attempts made and the opened content or the
error. -/
def openCommittedBlobFile (mode : BlobMode) (dl : Option String)
    (fs : BlobFS) (oid tid : Nat) (vanish1 vanish2 : Bool) :
    Nat × Except BlobErr String :=
  match loadBlob mode dl fs oid tid with
  | .error e => (1, .error e)
  | .ok (fs1, fn) =>
      let fs1v := if vanish1 then fsRemove fs1 fn else fs1
      match fsRead fs1v fn with
      | some c => (1, .ok c)
      | none =>
          match loadBlob mode dl fs1v oid tid with
          | .error e => (2, .error e)
          | .ok (fs2, fn2) =>
              let fs2v := if vanish2 then fsRemove fs2 fn2 else fs2
              match fsRead fs2v fn2 with
              | some c => (2, .ok c)
              | none => (2, .error .objectNotFound)

/-- The blob helper's per-transaction state: the filesystem, the
pending-blob map `_txn_blobs` (oid to staged path), the `txn_has_blobs`
flag, and a counter generating fresh staging names. -/
structure BlobTxnState where
  fs : BlobFS
  txn_blobs : List (Nat × BlobPath)
  txn_has_blobs : Bool
  seq : Nat
deriving DecidableEq

/-- Pending-blob lookup (`_txn_blobs.get(oid)`). -/
def lookupTxnBlob : List (Nat × BlobPath) → Nat → Option BlobPath
  | [], _ => none
  | e :: rest, oid => if e.1 = oid then some e.2 else lookupTxnBlob rest oid

/-- Pending-blob map without a given oid. -/
def removeTxnBlob : List (Nat × BlobPath) → Nat → List (Nat × BlobPath)
  | [], _ => []
  | e :: rest, oid =>
      if e.1 = oid then removeTxnBlob rest oid
      else e :: removeTxnBlob rest oid

/-- Pending-blob update (`_txn_blobs[oid] = target`). -/
def setTxnBlob (m : List (Nat × BlobPath)) (oid : Nat) (p : BlobPath) :
    List (Nat × BlobPath) :=
  (oid, p) :: removeTxnBlob m oid

/-- Modelled from the spec: the staging part of `BlobHelper.storeBlob`
(missing source: `relstorage/blobhelper.py`). The source file is moved
into a fresh transaction-scoped staging location; a previously staged file
for the same oid is discarded and the pending-blob entry replaced by the
latest; `txn_has_blobs` is set. `none` when the source file does not
exist. -/
def storeBlob (s : BlobTxnState) (oid : Nat) (fn : BlobPath) :
    Option BlobTxnState :=
  match fsRead s.fs fn with
  | none => none
  | some c =>
      let fs1 :=
        match lookupTxnBlob s.txn_blobs oid with
        | some old => fsRemove s.fs old
        | none => s.fs
      let target := BlobPath.staged oid s.seq
      let fs2 := fsWrite (fsRemove fs1 fn) target c
      some { fs := fs2,
             txn_blobs := setTxnBlob s.txn_blobs oid target,
             txn_has_blobs := true,
             seq := s.seq + 1 }

/-- Modelled from the spec: `BlobHelper.vote(tid)` (missing source:
`relstorage/blobhelper.py`). Every transaction-staged file is promoted
into its permanent (oid, tid) cache location by rename, independently per
oid. -/
def blobVote (s : BlobTxnState) (tid : Nat) : BlobTxnState :=
  { s with
    fs := s.txn_blobs.foldl
      (fun fs e =>
        match fsRead fs e.2 with
        | some c => fsWrite (fsRemove fs e.2) (BlobPath.cached e.1 tid) c
        | none => fs)
      s.fs }

/-! ## Helper lemmas about the filesystem model -/

theorem fsRead_fsRemove_self (fs : BlobFS) (p : BlobPath) :
    fsRead (fsRemove fs p) p = none := by
  induction fs with
  | nil => simp [fsRead, fsRemove]
  | cons e rest ih =>
      by_cases hep : e.1 = p <;> simp [fsRemove, fsRead, hep, ih]

theorem fsRead_fsRemove_ne (fs : BlobFS) (p q : BlobPath) (h : q ≠ p) :
    fsRead (fsRemove fs p) q = fsRead fs q := by
  induction fs with
  | nil => simp [fsRemove]
  | cons e rest ih =>
      by_cases hep : e.1 = p
      · have heq : e.1 ≠ q := fun hq => h (by rw [← hq, hep])
        simp [fsRemove, fsRead, hep, heq, ih, h.symm]
      · simp [fsRemove, fsRead, hep, ih]

theorem fsRead_fsRemove (fs : BlobFS) (p q : BlobPath) :
    fsRead (fsRemove fs p) q = if q = p then none else fsRead fs q := by
  by_cases h : q = p
  · simp [h, fsRead_fsRemove_self]
  · simp [h, fsRead_fsRemove_ne fs p q h]

theorem fsRead_fsWrite (fs : BlobFS) (p : BlobPath) (c : String)
    (q : BlobPath) :
    fsRead (fsWrite fs p c) q = if q = p then some c else fsRead fs q := by
  by_cases hqp : q = p
  · simp [fsWrite, fsRead, hqp]
  · have hpq : ¬ p = q := fun h => hqp h.symm
    simp [fsWrite, fsRead, hpq, hqp, fsRead_fsRemove_ne fs p q hqp]

/-! ## Claim theorems -/

/-- Claim C10: two `_StoredFunction`s compare equal exactly when their
`name` and `checksum` agree — `signature` and the `CREATE` statement are
ignored — and comparison with a value of any other type yields
`NotImplemented`. -/
theorem storedFunction_eq_spec (a b : StoredFunction) :
    (StoredFunction.eq a (.storedFunction b) = .bool true ↔
      a.name = b.name ∧ a.checksum = b.checksum) ∧
    (∀ tag, StoredFunction.eq a (.otherValue tag) = .notImplemented) ∧
    (∀ sig cr sig2 cr2,
      StoredFunction.eq ⟨a.name, sig, a.checksum, cr⟩
          (.storedFunction ⟨b.name, sig2, b.checksum, cr2⟩) =
        StoredFunction.eq a (.storedFunction b)) := by
  refine ⟨?_, fun tag => rfl, fun sig cr sig2 cr2 => rfl⟩
  simp [StoredFunction.eq]

/-- Witness for C10 at concrete stored functions differing only in
signature and create statement. -/
theorem storedFunction_eq_spec_witness :
    StoredFunction.eq ⟨"f", none, some "cs", none⟩
        (.storedFunction ⟨"f", some "(bigint)", some "cs", some "CREATE"⟩) =
      .bool true :=
  ((storedFunction_eq_spec ⟨"f", none, some "cs", none⟩
      ⟨"f", some "(bigint)", some "cs", some "CREATE"⟩).1).mpr ⟨rfl, rfl⟩

/-- Claim C1 (evaluation at the failing input): a wrapped begin state that
provides `store`, `checkCurrentSerialInTransaction`, `deleteObject`,
`undo` and `tpc_abort` has only four of the five delegated. Because
`_COPY_ATTRS` spells the entry `deletObject` (a typo for the IStorage
method `deleteObject`), the `getattr` for it always fails and
`deleteObject` is never copied onto the `Restore` object, while the other
four methods are delegated verbatim. -/
theorem restore_deleteObject_not_delegated :
    beginAttrsFull "deleteObject" = some 3 ∧
    restoreAttr (copyAttrs beginAttrsFull) "deleteObject" = none ∧
    restoreAttr (copyAttrs beginAttrsFull) "store" = some 1 ∧
    restoreAttr (copyAttrs beginAttrsFull) "checkCurrentSerialInTransaction"
      = some 2 ∧
    restoreAttr (copyAttrs beginAttrsFull) "undo" = some 4 ∧
    restoreAttr (copyAttrs beginAttrsFull) "tpc_abort" = some 5 := by
  decide

/-- Claim C2: `restore(oid, tid, data, transaction)` raises
`StorageTransactionError` (the transaction-mismatch error) when
`transaction` is not the one bound at begin — the error result carries no
new state, so no row is written — and otherwise queues exactly the row
`(oid, tid, data)` through Mover/Batcher and updates `max_stored_oid`. -/
theorem restore_txn_guard (s : RestoreState) (oid tid : Nat)
    (data : Option String) (prevTxn : Option Nat) (txn : Nat) :
    (txn ≠ s.boundTxn →
      Restore.restore s oid tid data prevTxn txn =
        .error .storageTransactionError) ∧
    (txn = s.boundTxn →
      Restore.restore s oid tid data prevTxn txn =
        .ok { s with
              max_stored_oid := max s.max_stored_oid oid,
              pending := s.pending ++ [(oid, tid, data)],
              events := s.events ++ [.rowRecorded oid tid data] }) := by
  constructor <;> intro h <;> simp [Restore.restore, h]

/-- Witness for C2: a mismatched transaction is rejected and the matching
transaction records the row. -/
theorem restore_txn_guard_witness :
    Restore.restore ⟨7, 0, [], []⟩ 5 2 (some "d") none 9 =
      .error .storageTransactionError ∧
    Restore.restore ⟨7, 0, [], []⟩ 5 2 (some "d") none 7 =
      .ok ⟨7, 5, [(5, 2, some "d")], [.rowRecorded 5 2 (some "d")]⟩ := by
  constructor
  · exact (restore_txn_guard ⟨7, 0, [], []⟩ 5 2 (some "d") none 9).1
      (by decide)
  · have h := (restore_txn_guard ⟨7, 0, [], []⟩ 5 2 (some "d") none 7).2 rfl
    simpa using h

/-- Claim C4: with the correct bound transaction,
`restoreBlob(oid, serial, data, blobfilename, prev_txn, txn)` performs
exactly, and in this order: the `restore` row write, then the batcher
flush, and only then the blob lifecycle manager's `restoreBlob` — so the
row write precedes the blob write. -/
theorem restoreBlob_order (s : RestoreState) (oid serial : Nat)
    (data : Option String) (blobfilename : String) (prevTxn : Option Nat)
    (txn : Nat) (h : txn = s.boundTxn) :
    Restore.restoreBlob s oid serial data blobfilename prevTxn txn =
      .ok { boundTxn := s.boundTxn,
            max_stored_oid := max s.max_stored_oid oid,
            pending := [],
            events := s.events ++
              [.rowRecorded oid serial data,
               .batcherFlushed,
               .blobRestored oid serial blobfilename] } := by
  subst h
  simp [Restore.restoreBlob, Restore.restore, batcherFlush]

/-- Witness for C4 at a concrete state and call. -/
theorem restoreBlob_order_witness :
    Restore.restoreBlob ⟨7, 0, [], []⟩ 1 2 (some "d") "fn" none 7 =
      .ok ⟨7, 1, [],
           [.rowRecorded 1 2 (some "d"), .batcherFlushed,
            .blobRestored 1 2 "fn"]⟩ := by
  have h := restoreBlob_order ⟨7, 0, [], []⟩ 1 2 (some "d") "fn" none 7 rfl
  simpa using h

/-- Claim C5: `Restore.__init__` requests the Tid Lock for the committing
tid as its very first step, before any row can be written (the fresh
state's batcher is empty and its effect trace is empty); when lock
acquisition raises, the store connection is dropped, the same error
propagates, and the trace shows no batcher creation, no method copying
and no vote-factory installation — no partial state is left. -/
theorem restoreInit_lock_first (tid : Nat) (status : String)
    (b : BeginState) (origFactory : Nat → VoteState) :
    (∀ e : Nat, restoreInit tid status (.error e) b origFactory =
      .error (e, [.lockRequested tid (status == "p"),
                  .storeConnectionDropped])) ∧
    (∀ lock : LockToken, ∃ r evs,
      restoreInit tid status (.ok lock) b origFactory = .ok (r, evs) ∧
      evs.head? = some (.lockRequested tid (status == "p")) ∧
      r.lock = lock ∧ r.state.events = [] ∧ r.state.pending = []) := by
  exact ⟨fun e => rfl, fun lock => ⟨_, _, rfl, rfl, rfl, rfl, rfl⟩⟩

/-- Claim C6: after construction, the wrapped begin state's vote factory
produces a vote state carrying the acquired lock token in
`committing_tid_lock`, whose temp-flush operation is extended, not
replaced: it performs the original flush sequence first and the batcher
flush after it. -/
theorem restoreInit_vote_factory (tid : Nat) (status : String)
    (lock : LockToken) (b : BeginState) (origFactory : Nat → VoteState)
    (st : Nat) :
    ∃ r evs,
      restoreInit tid status (.ok lock) b origFactory = .ok (r, evs) ∧
      (r.factory st).committing_tid_lock = some lock ∧
      (r.factory st).flushSeq = (origFactory st).flushSeq
        ++ [.batcherFlush] := by
  exact ⟨_, _, rfl, rfl, rfl⟩

theorem runRestores_ok_max (oids : List Nat) (s : RestoreState)
    (tid : Nat) :
    ∃ s2, runRestores s oids tid s.boundTxn = .ok s2 ∧
      s2.max_stored_oid = oids.foldl max s.max_stored_oid ∧
      s2.boundTxn = s.boundTxn := by
  induction oids generalizing s with
  | nil => exact ⟨s, rfl, rfl, rfl⟩
  | cons o rest ih =>
      have hres : Restore.restore s o tid none none s.boundTxn =
          .ok { s with
                max_stored_oid := max s.max_stored_oid o,
                pending := s.pending ++ [(o, tid, none)],
                events := s.events ++ [.rowRecorded o tid none] } := by
        simp [Restore.restore]
      obtain ⟨s2, hrun, hmax, hbound⟩ := ih
        { s with
          max_stored_oid := max s.max_stored_oid o,
          pending := s.pending ++ [(o, tid, none)],
          events := s.events ++ [.rowRecorded o tid none] }
      refine ⟨s2, ?_, ?_, hbound⟩
      · simpa [runRestores, hres] using hrun
      · simpa using hmax

/-- Claim C3: every successful `restore` sets `max_stored_oid` to
`max(current, oid)`, and a sequence of `restore` calls whose oids are any
permutation of `[5, 2, 9, 1]`, within one transaction starting from
`max_stored_oid = 0`, ends with `max_stored_oid = 9` independently of the
call order. -/
theorem restore_max_stored_oid_perm :
    (∀ (s : RestoreState) (oid tid : Nat) (data : Option String)
        (prevTxn : Option Nat) (txn : Nat) (s2 : RestoreState),
      Restore.restore s oid tid data prevTxn txn = .ok s2 →
      s2.max_stored_oid = max s.max_stored_oid oid) ∧
    (∀ (s : RestoreState) (oids : List Nat) (tid txn : Nat),
      txn = s.boundTxn → s.max_stored_oid = 0 → oids.Perm [5, 2, 9, 1] →
      ∃ s2, runRestores s oids tid txn = .ok s2 ∧
        s2.max_stored_oid = 9) := by
  constructor
  · intro s oid tid data prevTxn txn s2 h
    rw [Restore.restore] at h
    split at h
    · exact Except.noConfusion h
    · cases h
      rfl
  · intro s oids tid txn htxn h0 hperm
    subst htxn
    obtain ⟨s2, hrun, hmax, _⟩ := runRestores_ok_max oids s tid
    refine ⟨s2, hrun, ?_⟩
    rw [hmax, hperm.foldl_eq s.max_stored_oid, h0]
    decide

/-- Witness for C3 at the reversed permutation `[1, 9, 2, 5]`. -/
theorem restore_max_stored_oid_perm_witness :
    ∃ s2, runRestores ⟨7, 0, [], []⟩ [1, 9, 2, 5] 3 7 = .ok s2 ∧
      s2.max_stored_oid = 9 :=
  restore_max_stored_oid_perm.2 ⟨7, 0, [], []⟩ [1, 9, 2, 5] 3 7 rfl rfl
    (by decide)

/-- Claim C9: `loadBlob` in shared mode is a pure existence check on the
deterministic cache path — returning it when present, failing with
`ObjectNotFound` when absent, and never consulting the backend (the
result does not depend on the Mover's download behaviour) — while in
unshared mode an absent cache path triggers an internal download first,
failing with `ObjectNotFound` only if the file is still absent
afterward. -/
theorem loadBlob_modes (fs : BlobFS) (oid tid : Nat) (dl : Option String) :
    (fsExists fs (.cached oid tid) = true →
      loadBlob .shared dl fs oid tid = .ok (fs, .cached oid tid)) ∧
    (fsExists fs (.cached oid tid) = false →
      loadBlob .shared dl fs oid tid = .error .objectNotFound) ∧
    (∀ dl2, loadBlob .shared dl fs oid tid =
      loadBlob .shared dl2 fs oid tid) ∧
    (∀ c, fsExists fs (.cached oid tid) = false →
      loadBlob .unshared (some c) fs oid tid =
        .ok (fsWrite fs (.cached oid tid) c, .cached oid tid)) ∧
    (fsExists fs (.cached oid tid) = false →
      loadBlob .unshared none fs oid tid = .error .objectNotFound) := by
  refine ⟨?_, ?_, fun dl2 => rfl, ?_, ?_⟩
  · intro h
    simp [loadBlob, h]
  · intro h
    simp [loadBlob, h]
  · intro c h
    have hw : fsExists (fsWrite fs (.cached oid tid) c)
        (.cached oid tid) = true := by
      simp [fsExists, fsRead_fsWrite]
    simp [loadBlob, applyDownload, h, hw]
  · intro h
    simp [loadBlob, applyDownload, h]

/-- Witness for C9 at a one-file cache and an empty cache. -/
theorem loadBlob_modes_witness :
    loadBlob .shared none [(.cached 1 2, "blob here")] 1 2 =
      .ok ([(.cached 1 2, "blob here")], .cached 1 2) ∧
    loadBlob .shared none [] 1 2 = .error .objectNotFound ∧
    loadBlob .unshared (some "blob here") [] 1 2 =
      .ok ([(.cached 1 2, "blob here")], .cached 1 2) ∧
    loadBlob .unshared none [] 1 2 = .error .objectNotFound := by
  refine ⟨?_, ?_, ?_, ?_⟩
  · exact (loadBlob_modes [(.cached 1 2, "blob here")] 1 2 none).1 rfl
  · exact (loadBlob_modes [] 1 2 none).2.1 rfl
  · have h := (loadBlob_modes [] 1 2 (some "blob here")).2.2.2.1
      "blob here" rfl
    simpa [fsWrite, fsRemove] using h
  · exact (loadBlob_modes [] 1 2 none).2.2.2.2 rfl

/-- Claim C8: when the resolved blob file vanishes between resolution and
open inside `openCommittedBlobFile`, unshared mode retries resolution
exactly once and the fresh download recreates the file, so the open
succeeds with the backend content; shared mode fails with `ObjectNotFound`
after exactly two resolution attempts — never a third attempt, never
success. -/
theorem openCommitted_vanish (fs : BlobFS) (oid tid : Nat) (c : String) :
    (openCommittedBlobFile .unshared (some c) fs oid tid true false =
      (2, .ok c)) ∧
    (∀ dl vanish2, fsExists fs (.cached oid tid) = true →
      openCommittedBlobFile .shared dl fs oid tid true vanish2 =
        (2, .error .objectNotFound)) := by
  constructor
  · by_cases h : fsExists fs (.cached oid tid) = true
    · simp only [fsExists] at h
      simp [openCommittedBlobFile, loadBlob, applyDownload, fsExists, h,
            fsRead_fsRemove_self, fsRead_fsWrite]
    · simp only [Bool.not_eq_true, fsExists] at h
      simp [openCommittedBlobFile, loadBlob, applyDownload, fsExists, h,
            fsRead_fsRemove_self, fsRead_fsWrite]
  · intro dl vanish2 h
    simp only [fsExists] at h
    simp [openCommittedBlobFile, loadBlob, fsExists, h,
          fsRead_fsRemove_self]

/-- Witness for C8: an unshared cache recovering by re-download, and a
shared cache failing after two attempts. -/
theorem openCommitted_vanish_witness :
    openCommittedBlobFile .unshared (some "blob here") [] 1 2 true false =
      (2, .ok "blob here") ∧
    openCommittedBlobFile .shared none [(.cached 1 2, "blob here")] 1 2
        true false = (2, .error .objectNotFound) :=
  ⟨(openCommitted_vanish [] 1 2 "blob here").1,
   (openCommitted_vanish [(.cached 1 2, "blob here")] 1 2 "blob here").2
     none false rfl⟩

/-- Claim C7: two `storeBlob` calls for the same oid in one uncommitted
transaction: the first staged file is discarded, the pending-blob entry
afterward refers to a file holding the second call's content, and after
`vote` the final (oid, tid) cache location holds the second content. -/
theorem storeBlob_replace (fs : BlobFS) (oid n1 n2 : Nat) (c1 c2 : String)
    (tid : Nat) (h1 : fsRead fs (.user n1) = some c1)
    (h2 : fsRead fs (.user n2) = some c2) (hne : n1 ≠ n2) :
    ∃ s1 s2,
      storeBlob ⟨fs, [], false, 0⟩ oid (.user n1) = some s1 ∧
      storeBlob s1 oid (.user n2) = some s2 ∧
      lookupTxnBlob s2.txn_blobs oid = some (.staged oid 1) ∧
      fsRead s2.fs (.staged oid 1) = some c2 ∧
      fsRead s2.fs (.staged oid 0) = none ∧
      fsRead (blobVote s2 tid).fs (.cached oid tid) = some c2 := by
  have hread2 : fsRead (fsWrite (fsRemove fs (.user n1)) (.staged oid 0) c1)
      (.user n2) = some c2 := by
    simp [fsRead_fsWrite, fsRead_fsRemove, hne.symm, h2]
  refine ⟨⟨fsWrite (fsRemove fs (.user n1)) (.staged oid 0) c1,
           [(oid, .staged oid 0)], true, 1⟩,
          ⟨fsWrite (fsRemove (fsRemove (fsWrite (fsRemove fs (.user n1))
                  (.staged oid 0) c1) (.staged oid 0)) (.user n2))
              (.staged oid 1) c2,
           [(oid, .staged oid 1)], true, 2⟩, ?_, ?_, ?_, ?_, ?_, ?_⟩
  · simp [storeBlob, h1, lookupTxnBlob, setTxnBlob, removeTxnBlob]
  · simp [storeBlob, hread2, lookupTxnBlob, setTxnBlob, removeTxnBlob]
  · simp [lookupTxnBlob]
  · simp [fsRead_fsWrite]
  · simp [fsRead_fsWrite, fsRead_fsRemove, fsRead_fsRemove_self]
  · simp [blobVote, fsRead_fsWrite, fsRead_fsRemove, fsRead_fsRemove_self]

/-- Witness for C7 with the test suite's two contents. -/
theorem storeBlob_replace_witness :
    ∃ s1 s2,
      storeBlob ⟨[(.user 0, "here a blob"), (.user 1, "there a blob")],
                 [], false, 0⟩ 1 (.user 0) = some s1 ∧
      storeBlob s1 1 (.user 1) = some s2 ∧
      lookupTxnBlob s2.txn_blobs 1 = some (.staged 1 1) ∧
      fsRead s2.fs (.staged 1 1) = some "there a blob" ∧
      fsRead s2.fs (.staged 1 0) = none ∧
      fsRead (blobVote s2 2).fs (.cached 1 2) = some "there a blob" :=
  storeBlob_replace
    [(.user 0, "here a blob"), (.user 1, "there a blob")]
    1 0 1 "here a blob" "there a blob" 2 rfl rfl (by decide)

end RelStorage
